import Mathlib

/-
Verification of the nc-website serverless form handlers (waitlist, referral,
alpha-signup) and their shared helpers, modelled shallowly from the TypeScript
source.  Each handler is embedded as a pure function from the request body,
the environment configuration and a network oracle (supplying the outcome of
each outbound call, in the order issued) to the HTTP response together with
the trace of outbound calls it performed.  CORS headers and the
OPTIONS/405 method dispatch are response plumbing not modelled; the handlers
below model the POST body path.
-/

set_option maxRecDepth 4096

/-- JavaScript string truthiness for an optional string field: `undefined`
and the empty string are falsy. -/
def truthy : Option String → Bool
  | none => false
  | some s => !(s == "")

/-- JavaScript `x || d` for an optional string: the default is used when the
field is absent or empty. -/
def jsOr (o : Option String) (d : String) : String :=
  if truthy o then o.getD "" else d

/-- UTF-16 code units of one Unicode scalar value, as JavaScript strings
expose them (`charCodeAt`, `length`, `split`). -/
def utf16Units (c : Char) : List Nat :=
  if c.toNat < 65536 then [c.toNat]
  else [55296 + (c.toNat - 65536) / 1024, 56320 + (c.toNat - 65536) % 1024]

/-- UTF-16 code-unit sequence of a string. -/
def jsCodeUnits : List Char → List Nat
  | [] => []
  | c :: cs => utf16Units c ++ jsCodeUnits cs

/-- JavaScript `s.length` (UTF-16 code units). -/
def jsLength (s : String) : Nat := (jsCodeUnits s.data).length

/-- JavaScript `s.includes(c)` for a single ASCII character: an occurrence
test over the string's characters. -/
def includesChar (s : String) (c : Char) : Bool := s.data.any (fun x => x == c)

/-- Environment configuration read from `process.env` at module load. -/
structure Config where
  sendgridKey : Option String
  turnstileSecret : Option String
deriving DecidableEq, Repr

/-- Outcome of one outbound `fetch`: whether the promise rejected (network
error / thrown exception), whether the HTTP response was 2xx (`response.ok`),
and the parsed `success` boolean for the bot-verification endpoint. -/
structure NetResult where
  throws : Bool
  ok : Bool
  success : Bool
deriving DecidableEq, Repr

/-- Opaque e-mail bodies, tagged by template with the interpolated fields. -/
inductive EmailTemplate where
  | waitlistWelcome (name : String)
  | foundation100Welcome (name : String)
  | waitlistAdminNotif (email : String) (name : Option String) (type : Option String)
  | friendInviteEmail (friendName referrerName referralCode : String)
  | referrerConfirmEmail (referrerName friendName : String) (counterpartyAddress : Option String)
  | referralAdminNotif (referrerName referrerEmail : String) (counterpartyAddress : Option String)
      (friendName friendEmail referralCode : String)
  | alphaAdminNotif (name email github discoveryLabel motivation : String)
  | alphaUserConfirm (name email github : String)
deriving DecidableEq, Repr

/-- One outbound third-party call, as recorded in a handler's trace. -/
inductive OutboundCall where
  | emailSend (recipient : String) (subject : String) (template : EmailTemplate)
  | contactUpsert (contacts : List (String × String))
  | turnstileVerify (secret : String) (response : String) (remoteip : Option String)
deriving DecidableEq, Repr

def isContactUpsert : OutboundCall → Bool
  | .contactUpsert _ => true
  | _ => false

def isTurnstileCall : OutboundCall → Bool
  | .turnstileVerify _ _ _ => true
  | _ => false

/-- Projection of a call to its kind and recipient, used to state dispatch
order without repeating subjects and templates. -/
inductive CallKind where
  | email (recipient : String)
  | upsert (emails : List String)
  | turnstile
deriving DecidableEq, Repr

def callKind : OutboundCall → CallKind
  | .emailSend r _ _ => .email r
  | .contactUpsert cs => .upsert (cs.map Prod.fst)
  | .turnstileVerify _ _ _ => .turnstile

/-- JSON response body: `{error: msg}` or `{success: true, message: msg}`. -/
inductive RespBody where
  | err (msg : String)
  | success (msg : String)
deriving DecidableEq, Repr

structure HttpResponse where
  status : Nat
  body : RespBody
deriving DecidableEq, Repr

def ADMIN_EMAIL : String := "bradley@neuralcommander.ai"

/- ### Bot verifier (src/lib/turnstile.ts and the copy local to alpha-signup.ts) -/

/-- `verifyTurnstileToken(token, secretKey, remoteip)` from src/lib/turnstile.ts.
Returns the verification verdict and the outbound calls performed.  Note that
the code returns the parsed `success` field without inspecting `response.ok`,
and a thrown fetch or parse error is caught and mapped to `false`. -/
def verifyTurnstileToken (token : String) (secretKey : Option String)
    (remoteip : Option String) (net : NetResult) : Bool × List OutboundCall :=
  if !truthy secretKey then (true, [])
  else if token == "" then (false, [])
  else
    let call := OutboundCall.turnstileVerify (secretKey.getD "") token remoteip
    if net.throws then (false, [call]) else (net.success, [call])

/-- `verifyTurnstile(token)` local to api/alpha-signup.ts.  Unlike the shared
helper it has no empty-token guard: with a configured secret it always POSTs
the token (empty or not) and returns the parsed `success`. -/
def verifyTurnstile (secretKey : Option String) (token : String)
    (net : NetResult) : Bool × List OutboundCall :=
  if !truthy secretKey then (true, [])
  else
    let call := OutboundCall.turnstileVerify (secretKey.getD "") token none
    if net.throws then (false, [call]) else (net.success, [call])

/- ### Referral code generation (api referral handler) -/

/-- ECMAScript `ToInt32`: wrap an integer into the signed 32-bit range. -/
def toInt32 (x : Int) : Int := (x + 2 ^ 31) % 2 ^ 32 - 2 ^ 31

/-- One step of the reduce in `generateReferralCode`:
`((acc << 5) - acc) + char.charCodeAt(0)`.  The left shift coerces its
operand to int32 and produces an int32 result; the outer subtraction and
addition are exact. -/
def hashStep (acc : Int) (u : Nat) : Int := toInt32 (acc * 32) - acc + (u : Int)

/-- The reduce over `email.split('')` (UTF-16 code units) with seed 0. -/
def referralHash (email : String) : Int := (jsCodeUnits email.data).foldl hashStep 0

/-- Lowercase base-36 digit characters, as produced by `Number.toString(36)`. -/
def digitChar36 (d : Nat) : Char :=
  if d < 10 then Char.ofNat (48 + d) else Char.ofNat (87 + d)

/-- Most-significant-first base-36 digit expansion; the fuel argument bounds
the recursion and `n` fuel always suffices. -/
def toString36Go (fuel : Nat) (n : Nat) (acc : List Char) : List Char :=
  match fuel with
  | 0 => acc
  | fuel + 1 => if n = 0 then acc else toString36Go fuel (n / 36) (digitChar36 (n % 36) :: acc)

/-- JavaScript `n.toString(36)` for a non-negative integer. -/
def toString36 (n : Nat) : List Char :=
  if n = 0 then [Char.ofNat 48] else toString36Go n n []

/-- `generateReferralCode(email)` from the referral handler:
`NC-` ++ `Math.abs(hash).toString(36).toUpperCase().slice(0, 6)`. -/
def generateReferralCode (email : String) : String :=
  let hash := referralHash email
  "NC-" ++ String.mk (((toString36 hash.natAbs).map Char.toUpper).take 6)

def isUpperAlnum (c : Char) : Bool :=
  ('A' ≤ c && c ≤ 'Z') || ('0' ≤ c && c ≤ '9')

/- ### GitHub username pattern (api/alpha-signup.ts) -/

def isGithubAlnum (c : Char) : Bool :=
  ('a' ≤ c && c ≤ 'z') || ('A' ≤ c && c ≤ 'Z') || ('0' ≤ c && c ≤ '9')

/-- Tail matcher for `(?:[a-zA-Z0-9]|-(?=[a-zA-Z0-9])){0,38}$`: at most `n`
further characters, each alphanumeric or a hyphen whose lookahead requires
the next character to be alphanumeric.  Each alternative consumes exactly one
character and the alternatives are disjoint, so the match is deterministic. -/
def githubTailCode : List Char → Nat → Bool
  | [], _ => true
  | _ :: _, 0 => false
  | c :: rest, n + 1 =>
    if isGithubAlnum c then githubTailCode rest n
    else if c == '-' then
      match rest with
      | [] => false
      | d :: _ => isGithubAlnum d && githubTailCode rest n
    else false

/-- The regular expression `/^[a-zA-Z0-9](?:[a-zA-Z0-9]|-(?=[a-zA-Z0-9])){0,38}$/`
tested by the alpha-signup handler. -/
def githubPatternTest (s : String) : Bool :=
  match s.data with
  | [] => false
  | c :: rest => isGithubAlnum c && githubTailCode rest 38

/-- Tail matcher for the claim's pattern `(?:[A-Za-z0-9]|-(?!-)){0,38}$`: a
hyphen requires only that the next character (if any) is not another
hyphen, so a trailing hyphen is allowed. -/
def specGithubTail : List Char → Nat → Bool
  | [], _ => true
  | _ :: _, 0 => false
  | c :: rest, n + 1 =>
    if isGithubAlnum c then specGithubTail rest n
    else if c == '-' then
      match rest with
      | [] => true
      | d :: _ => !(d == '-') && specGithubTail rest n
    else false

/-- Follows the spec's words: the pattern `^[A-Za-z0-9](?:[A-Za-z0-9]|-(?!-)){0,38}$`
the claim says the handler tests.  Kept separate from `githubPatternTest`
(the pattern actually in the source) for comparison. -/
def specGithubPattern (s : String) : Bool :=
  match s.data with
  | [] => false
  | c :: rest => isGithubAlnum c && specGithubTail rest 38

/- ### The discovery-source label table (api/alpha-signup.ts) -/

def discoveryLabel (d : String) : String :=
  if d == "twitter" then "Twitter/X"
  else if d == "hackernews" then "Hacker News"
  else if d == "reddit" then "Reddit"
  else if d == "referral" then "Friend referral"
  else if d == "google" then "Google search"
  else if d == "ai-communities" then "AI coding communities"
  else if d == "other" then "Other"
  else d

/- ### Waitlist handler (api/waitlist.ts) -/

structure WaitlistBody where
  email : Option String
  name : Option String
  type : Option String
deriving DecidableEq, Repr

/-- The waitlist handler's POST path.  `net i` is the outcome of the i-th
outbound call.  A thrown fetch anywhere in the try block and a non-ok user
e-mail response (which the code turns into a thrown Error) both reach the
outer catch and produce the generic 500; the contact upsert has its own
internal try/catch, so its outcome is ignored entirely. -/
def waitlistHandler (cfg : Config) (b : WaitlistBody) (net : Nat → NetResult) :
    HttpResponse × List OutboundCall :=
  let email := b.email.getD ""
  if !truthy b.email || !includesChar email '@' then
    (⟨400, .err "Valid email required"⟩, [])
  else if !truthy cfg.sendgridKey then
    (⟨500, .err "Email service not configured"⟩, [])
  else
    let isF100 := b.type == some "foundation100"
    let userSubject := if isF100 then "🎉 Welcome to Foundation 100!"
      else "🚀 You\x27re on the Neural Commander Waitlist!"
    let userTemplate := if isF100 then EmailTemplate.foundation100Welcome (jsOr b.name "there")
      else EmailTemplate.waitlistWelcome (jsOr b.name "there")
    let c0 := OutboundCall.emailSend email userSubject userTemplate
    if (net 0).throws || !(net 0).ok then
      (⟨500, .err "Failed to process signup"⟩, [c0])
    else
      let adminSubject := if isF100 then "💰 Foundation 100 Signup: " ++ email
        else "📋 New Waitlist Signup: " ++ email
      let c1 := OutboundCall.emailSend ADMIN_EMAIL adminSubject
        (.waitlistAdminNotif email b.name b.type)
      if (net 1).throws then
        (⟨500, .err "Failed to process signup"⟩, [c0, c1])
      else
        let c2 := OutboundCall.contactUpsert [(email, jsOr b.name "")]
        (⟨200, .success "Successfully joined the waitlist!"⟩, [c0, c1, c2])

/- ### Referral handler (api referral endpoint) -/

structure ReferralBody where
  referrerName : Option String
  referrerEmail : Option String
  counterpartyAddress : Option String
  friendName : Option String
  friendEmail : Option String
deriving DecidableEq, Repr

/-- ASCII lowering of a string, modelling `String.prototype.toLowerCase` on
the ASCII range. -/
def asciiLower (s : String) : String := String.mk (s.data.map Char.toLower)

/-- The referral handler's POST path.  The friend invite is critical (a
non-ok response is turned into a thrown Error); the referrer confirmation
and admin notification tolerate non-ok responses but a thrown fetch still
reaches the outer catch; the batched contact upsert swallows everything. -/
def referralHandler (cfg : Config) (b : ReferralBody) (net : Nat → NetResult) :
    HttpResponse × List OutboundCall :=
  let referrerName := b.referrerName.getD ""
  let referrerEmail := b.referrerEmail.getD ""
  let friendName := b.friendName.getD ""
  let friendEmail := b.friendEmail.getD ""
  if !truthy b.referrerName || !truthy b.referrerEmail || !truthy b.friendName
      || !truthy b.friendEmail then
    (⟨400, .err "All required fields must be provided"⟩, [])
  else if !includesChar referrerEmail '@' || !includesChar friendEmail '@' then
    (⟨400, .err "Valid email addresses required"⟩, [])
  else if asciiLower referrerEmail == asciiLower friendEmail then
    (⟨400, .err "You cannot refer yourself"⟩, [])
  else if !truthy cfg.sendgridKey then
    (⟨500, .err "Email service not configured"⟩, [])
  else
    let referralCode := generateReferralCode referrerEmail
    let c0 := OutboundCall.emailSend friendEmail
      (referrerName ++ " invited you to try Neural Commander")
      (.friendInviteEmail friendName referrerName referralCode)
    if (net 0).throws || !(net 0).ok then
      (⟨500, .err "Failed to process referral"⟩, [c0])
    else
      let c1 := OutboundCall.emailSend referrerEmail
        ("Your referral to " ++ friendName ++ " has been sent!")
        (.referrerConfirmEmail referrerName friendName b.counterpartyAddress)
      if (net 1).throws then
        (⟨500, .err "Failed to process referral"⟩, [c0, c1])
      else
        let c2 := OutboundCall.emailSend ADMIN_EMAIL
          ("🔗 New Referral: " ++ referrerName ++ " → " ++ friendName)
          (.referralAdminNotif referrerName referrerEmail b.counterpartyAddress
            friendName friendEmail referralCode)
        if (net 2).throws then
          (⟨500, .err "Failed to process referral"⟩, [c0, c1, c2])
        else
          let c3 := OutboundCall.contactUpsert
            [(referrerEmail, referrerName), (friendEmail, friendName)]
          (⟨200, .success "Referral sent successfully!"⟩, [c0, c1, c2, c3])

/- ### Alpha-signup handler (api/alpha-signup.ts) -/

structure AlphaBody where
  name : Option String
  email : Option String
  github : Option String
  discovery : Option String
  motivation : Option String
  turnstileToken : Option String
deriving DecidableEq, Repr

/-- The alpha-signup handler's POST path.  `tnet` is the outcome of the
single bot-verification call, `net i` of the i-th SendGrid call.  The whole
e-mail block sits inside one try/catch whose catch merely logs, so a thrown
send skips the remaining sends but the handler still answers 200; the send
helpers never inspect `response.ok`, so non-success HTTP responses have no
effect at all. -/
def alphaHandler (cfg : Config) (b : AlphaBody) (tnet : NetResult)
    (net : Nat → NetResult) : HttpResponse × List OutboundCall :=
  let name := b.name.getD ""
  let email := b.email.getD ""
  let github := b.github.getD ""
  let discovery := b.discovery.getD ""
  let motivation := b.motivation.getD ""
  if !truthy b.name || !truthy b.email || !truthy b.github || !truthy b.discovery
      || !truthy b.motivation then
    (⟨400, .err "All fields are required"⟩, [])
  else if !includesChar email '@' then
    (⟨400, .err "Valid email required"⟩, [])
  else if jsLength motivation < 20 then
    (⟨400, .err "Please provide a more detailed motivation"⟩, [])
  else if !githubPatternTest github then
    (⟨400, .err "Invalid GitHub username format"⟩, [])
  else
    let doVerify := truthy cfg.turnstileSecret && truthy b.turnstileToken
    let verdict := if doVerify then verifyTurnstile cfg.turnstileSecret (b.turnstileToken.getD "") tnet
      else (true, [])
    if doVerify && !verdict.1 then
      (⟨400, .err "Bot verification failed. Please try again."⟩, verdict.2)
    else if truthy cfg.sendgridKey then
      let cAdmin := OutboundCall.emailSend ADMIN_EMAIL
        ("🧪 Alpha Request: " ++ github ++ " (" ++ name ++ ")")
        (.alphaAdminNotif name email github (discoveryLabel discovery) motivation)
      if (net 0).throws then
        (⟨200, .success "Alpha access request submitted!"⟩, verdict.2 ++ [cAdmin])
      else
        let cUser := OutboundCall.emailSend email
          "🧪 Alpha Access Request Received - Neural Commander"
          (.alphaUserConfirm name email github)
        if (net 1).throws then
          (⟨200, .success "Alpha access request submitted!"⟩, verdict.2 ++ [cAdmin, cUser])
        else
          let cContacts := OutboundCall.contactUpsert [(email, name)]
          (⟨200, .success "Alpha access request submitted!"⟩,
            verdict.2 ++ [cAdmin, cUser, cContacts])
    else
      (⟨200, .success "Alpha access request submitted!"⟩, verdict.2)

/- ### Facts about base-36 rendering, for the referral-code format -/

theorem digitChar36_upper_ok : ∀ d : Fin 36, isUpperAlnum (Char.toUpper (digitChar36 d.val)) = true := by
  decide

theorem toString36Go_chars (fuel : Nat) :
    ∀ (n : Nat) (acc : List Char), (∀ c ∈ acc, isUpperAlnum c.toUpper = true) →
      ∀ c ∈ toString36Go fuel n acc, isUpperAlnum c.toUpper = true := by
  induction fuel with
  | zero => intro n acc h c hc; simpa [toString36Go] using h c hc
  | succ fuel ih =>
    intro n acc h c hc
    rw [toString36Go] at hc
    split at hc
    · exact h c hc
    · refine ih (n / 36) _ ?_ c hc
      intro c' hc'
      rcases List.mem_cons.mp hc' with h1 | h2
      · subst h1; exact digitChar36_upper_ok ⟨n % 36, Nat.mod_lt _ (by decide)⟩
      · exact h c' h2

theorem toString36Go_length (fuel : Nat) :
    ∀ (n : Nat) (acc : List Char), acc.length ≤ (toString36Go fuel n acc).length := by
  induction fuel with
  | zero => intro n acc; simp [toString36Go]
  | succ fuel ih =>
    intro n acc
    rw [toString36Go]
    split
    · exact le_refl _
    · calc acc.length ≤ (digitChar36 (n % 36) :: acc).length := by simp
        _ ≤ _ := ih (n / 36) _

theorem toString36_length_pos (n : Nat) : 1 ≤ (toString36 n).length := by
  unfold toString36
  split
  · simp
  · rename_i h
    cases n with
    | zero => exact absurd rfl h
    | succ m =>
      rw [toString36Go, if_neg h]
      exact le_trans (by simp) (toString36Go_length m ((m + 1) / 36) _)

theorem toString36_chars (n : Nat) : ∀ c ∈ toString36 n, isUpperAlnum c.toUpper = true := by
  unfold toString36
  split
  · intro c hc
    simp only [List.mem_singleton] at hc
    subst hc; decide
  · exact toString36Go_chars n n [] (by simp)

/-- C6: referral-code generation is a deterministic pure function of the
referrer's e-mail, and for every e-mail the output is the prefix `NC-`
followed by 1 to 6 uppercase base-36 characters (matching
`NC-[A-Z0-9]{1,6}`). -/
theorem referralCode_deterministic_and_format (email : String) :
    generateReferralCode email = generateReferralCode email ∧
    ∃ l : List Char, generateReferralCode email = "NC-" ++ String.mk l ∧
      1 ≤ l.length ∧ l.length ≤ 6 ∧ l.all isUpperAlnum = true := by
  refine ⟨rfl, ((toString36 (referralHash email).natAbs).map Char.toUpper).take 6,
    rfl, ?_, ?_, ?_⟩
  · rw [List.length_take, List.length_map]
    exact le_min (by decide) (toString36_length_pos (referralHash email).natAbs)
  · rw [List.length_take]
    exact min_le_left _ _
  · rw [List.all_eq_true]
    intro c hc
    have hc' := List.take_subset _ _ hc
    rcases List.mem_map.mp hc' with ⟨c₀, hc₀, rfl⟩
    exact toString36_chars _ c₀ hc₀

/-- C7: a referral submission whose referrer and friend e-mails are equal
case-insensitively (all required fields present, both e-mails containing `@`)
is rejected with 400 `You cannot refer yourself` and no outbound call. -/
theorem referral_self_rejected (cfg : Config) (b : ReferralBody) (net : Nat → NetResult)
    (h1 : truthy b.referrerName = true) (h2 : truthy b.referrerEmail = true)
    (h3 : truthy b.friendName = true) (h4 : truthy b.friendEmail = true)
    (h5 : includesChar (b.referrerEmail.getD "") '@' = true)
    (h6 : includesChar (b.friendEmail.getD "") '@' = true)
    (h7 : asciiLower (b.referrerEmail.getD "") = asciiLower (b.friendEmail.getD "")) :
    referralHandler cfg b net = (⟨400, .err "You cannot refer yourself"⟩, []) := by
  simp [referralHandler, h1, h2, h3, h4, h5, h6, h7]

theorem referral_self_rejected_witness :
    referralHandler ⟨some "SG", none⟩
      ⟨some "Ref", some "A@b.com", none, some "Fred", some "a@B.com"⟩
      (fun _ => ⟨false, true, true⟩) = (⟨400, .err "You cannot refer yourself"⟩, []) :=
  referral_self_rejected _ _ _ (by decide) (by decide) (by decide) (by decide)
    (by decide) (by decide) (by decide)

/-- C1 counterexample: with the email service configured, an alpha-signup
submission whose end-user confirmation email receives a non-success HTTP
response from the email API still gets a 200 success response, not the
claimed 500 — the alpha send helpers never inspect `response.ok` and the
email block catches every error. -/
theorem alpha_critical_email_failure_returns_200 :
    (alphaHandler ⟨some "SG", none⟩
      ⟨some "Ada", some "ada@example.com", some "ada", some "twitter",
        some "I want to test this tool every day", none⟩
      ⟨false, true, true⟩
      (fun n => if n = 1 then ⟨false, false, false⟩ else ⟨false, true, true⟩)).1 =
    ⟨200, .success "Alpha access request submitted!"⟩ := by decide

/-- C1 (amended): with the email service configured, a non-success HTTP
response from the critical first (end-user or friend) email call makes the
waitlist and referral handlers return 500 with the generic error body and
perform no contact-list upsert; the alpha-signup handler instead reports 200
regardless of email-call outcomes. -/
theorem critical_email_failure_behavior :
    (∀ (cfg : Config) (b : WaitlistBody) (net : Nat → NetResult),
      truthy b.email = true → includesChar (b.email.getD "") '@' = true →
      truthy cfg.sendgridKey = true →
      (net 0).throws = false → (net 0).ok = false →
      (waitlistHandler cfg b net).1 = ⟨500, .err "Failed to process signup"⟩ ∧
      ((waitlistHandler cfg b net).2.all fun c => !isContactUpsert c) = true)
    ∧ (∀ (cfg : Config) (b : ReferralBody) (net : Nat → NetResult),
      truthy b.referrerName = true → truthy b.referrerEmail = true →
      truthy b.friendName = true → truthy b.friendEmail = true →
      includesChar (b.referrerEmail.getD "") '@' = true →
      includesChar (b.friendEmail.getD "") '@' = true →
      (asciiLower (b.referrerEmail.getD "") == asciiLower (b.friendEmail.getD "")) = false →
      truthy cfg.sendgridKey = true →
      (net 0).throws = false → (net 0).ok = false →
      (referralHandler cfg b net).1 = ⟨500, .err "Failed to process referral"⟩ ∧
      ((referralHandler cfg b net).2.all fun c => !isContactUpsert c) = true)
    ∧ (∀ (cfg : Config) (b : AlphaBody) (tnet : NetResult) (net : Nat → NetResult),
      truthy b.name = true → truthy b.email = true → truthy b.github = true →
      truthy b.discovery = true → truthy b.motivation = true →
      includesChar (b.email.getD "") '@' = true →
      ¬ jsLength (b.motivation.getD "") < 20 →
      githubPatternTest (b.github.getD "") = true →
      truthy b.turnstileToken = false →
      truthy cfg.sendgridKey = true →
      (alphaHandler cfg b tnet net).1 = ⟨200, .success "Alpha access request submitted!"⟩) := by
  refine ⟨?_, ?_, ?_⟩
  · intro cfg b net h1 h2 h3 h4 h5
    constructor
    · simp [waitlistHandler, h1, h2, h3, h4, h5]
    · simp [waitlistHandler, h1, h2, h3, h4, h5, isContactUpsert]
  · intro cfg b net h1 h2 h3 h4 h5 h6 h7 h8 h9 h10
    constructor
    · simp [referralHandler, h1, h2, h3, h4, h5, h6, h7, h8, h9, h10]
    · simp [referralHandler, h1, h2, h3, h4, h5, h6, h7, h8, h9, h10, isContactUpsert]
  · intro cfg b tnet net h1 h2 h3 h4 h5 h6 h7 h8 h9 h10
    cases hb0 : (net 0).throws <;> cases hb1 : (net 1).throws <;>
      simp [alphaHandler, h1, h2, h3, h4, h5, h6, h7, h8, h9, h10, hb0, hb1]

theorem critical_email_failure_behavior_witness :
    ((waitlistHandler ⟨some "SG", none⟩ ⟨some "ann@example.com", some "Ann", some "waitlist"⟩
        (fun _ => ⟨false, false, false⟩)).1 = ⟨500, .err "Failed to process signup"⟩ ∧
      ((waitlistHandler ⟨some "SG", none⟩ ⟨some "ann@example.com", some "Ann", some "waitlist"⟩
        (fun _ => ⟨false, false, false⟩)).2.all fun c => !isContactUpsert c) = true) ∧
    ((referralHandler ⟨some "SG", none⟩
        ⟨some "Ref", some "ref@x.com", none, some "Fred", some "fred@y.com"⟩
        (fun _ => ⟨false, false, false⟩)).1 = ⟨500, .err "Failed to process referral"⟩ ∧
      ((referralHandler ⟨some "SG", none⟩
        ⟨some "Ref", some "ref@x.com", none, some "Fred", some "fred@y.com"⟩
        (fun _ => ⟨false, false, false⟩)).2.all fun c => !isContactUpsert c) = true) ∧
    (alphaHandler ⟨some "SG", none⟩
      ⟨some "Ada", some "ada@example.com", some "ada", some "twitter",
        some "I want to test this tool every day", none⟩
      ⟨false, true, true⟩ (fun _ => ⟨false, false, false⟩)).1 =
      ⟨200, .success "Alpha access request submitted!"⟩ :=
  ⟨critical_email_failure_behavior.1 _ _ _ (by decide) (by decide) (by decide)
      (by decide) (by decide),
   critical_email_failure_behavior.2.1 _ _ _ (by decide) (by decide) (by decide)
      (by decide) (by decide) (by decide) (by decide) (by decide) (by decide) (by decide),
   critical_email_failure_behavior.2.2 _ _ _ _ (by decide) (by decide) (by decide)
      (by decide) (by decide) (by decide) (by decide) (by decide) (by decide) (by decide)⟩

/-- C2 counterexample: with the email service configured, a waitlist
submission on the success path whose best-effort admin-notification fetch
throws gets a 500, not the claimed 200 — the thrown fetch reaches the
handler's outer catch. -/
theorem waitlist_admin_throw_returns_500 :
    (waitlistHandler ⟨some "SG", none⟩ ⟨some "ann@example.com", some "Ann", some "waitlist"⟩
      (fun n => if n = 1 then ⟨true, false, false⟩ else ⟨false, true, true⟩)).1 =
    ⟨500, .err "Failed to process signup"⟩ := by decide

/-- C2 (amended): best-effort failures that are tolerated are non-success
HTTP responses of the admin and referrer emails (waitlist, referral), any
exception thrown by the contact-list upsert (all endpoints, it has its own
try/catch), and any exception inside the alpha email block — all of these
still yield 200 with the success body.  An exception thrown by the admin or
referrer email fetch in waitlist/referral, however, propagates to the outer
catch and yields 500. -/
theorem best_effort_failure_behavior :
    (∀ (cfg : Config) (b : WaitlistBody) (net : Nat → NetResult),
      truthy b.email = true → includesChar (b.email.getD "") '@' = true →
      truthy cfg.sendgridKey = true →
      (net 0).throws = false → (net 0).ok = true → (net 1).throws = false →
      (waitlistHandler cfg b net).1 = ⟨200, .success "Successfully joined the waitlist!"⟩)
    ∧ (∀ (cfg : Config) (b : ReferralBody) (net : Nat → NetResult),
      truthy b.referrerName = true → truthy b.referrerEmail = true →
      truthy b.friendName = true → truthy b.friendEmail = true →
      includesChar (b.referrerEmail.getD "") '@' = true →
      includesChar (b.friendEmail.getD "") '@' = true →
      (asciiLower (b.referrerEmail.getD "") == asciiLower (b.friendEmail.getD "")) = false →
      truthy cfg.sendgridKey = true →
      (net 0).throws = false → (net 0).ok = true →
      (net 1).throws = false → (net 2).throws = false →
      (referralHandler cfg b net).1 = ⟨200, .success "Referral sent successfully!"⟩)
    ∧ (∀ (cfg : Config) (b : AlphaBody) (tnet : NetResult) (net : Nat → NetResult),
      truthy b.name = true → truthy b.email = true → truthy b.github = true →
      truthy b.discovery = true → truthy b.motivation = true →
      includesChar (b.email.getD "") '@' = true →
      ¬ jsLength (b.motivation.getD "") < 20 →
      githubPatternTest (b.github.getD "") = true →
      truthy b.turnstileToken = false →
      truthy cfg.sendgridKey = true →
      (alphaHandler cfg b tnet net).1 = ⟨200, .success "Alpha access request submitted!"⟩)
    ∧ (∀ (cfg : Config) (b : WaitlistBody) (net : Nat → NetResult),
      truthy b.email = true → includesChar (b.email.getD "") '@' = true →
      truthy cfg.sendgridKey = true →
      (net 0).throws = false → (net 0).ok = true → (net 1).throws = true →
      (waitlistHandler cfg b net).1 = ⟨500, .err "Failed to process signup"⟩)
    ∧ (∀ (cfg : Config) (b : ReferralBody) (net : Nat → NetResult),
      truthy b.referrerName = true → truthy b.referrerEmail = true →
      truthy b.friendName = true → truthy b.friendEmail = true →
      includesChar (b.referrerEmail.getD "") '@' = true →
      includesChar (b.friendEmail.getD "") '@' = true →
      (asciiLower (b.referrerEmail.getD "") == asciiLower (b.friendEmail.getD "")) = false →
      truthy cfg.sendgridKey = true →
      (net 0).throws = false → (net 0).ok = true → (net 1).throws = true →
      (referralHandler cfg b net).1 = ⟨500, .err "Failed to process referral"⟩) := by
  refine ⟨?_, ?_, ?_, ?_, ?_⟩
  · intro cfg b net h1 h2 h3 h4 h5 h6
    simp [waitlistHandler, h1, h2, h3, h4, h5, h6]
  · intro cfg b net h1 h2 h3 h4 h5 h6 h7 h8 h9 h10 h11 h12
    simp [referralHandler, h1, h2, h3, h4, h5, h6, h7, h8, h9, h10, h11, h12]
  · intro cfg b tnet net h1 h2 h3 h4 h5 h6 h7 h8 h9 h10
    cases hb0 : (net 0).throws <;> cases hb1 : (net 1).throws <;>
      simp [alphaHandler, h1, h2, h3, h4, h5, h6, h7, h8, h9, h10, hb0, hb1]
  · intro cfg b net h1 h2 h3 h4 h5 h6
    simp [waitlistHandler, h1, h2, h3, h4, h5, h6]
  · intro cfg b net h1 h2 h3 h4 h5 h6 h7 h8 h9 h10 h11
    simp [referralHandler, h1, h2, h3, h4, h5, h6, h7, h8, h9, h10, h11]

theorem best_effort_failure_behavior_witness :
    (waitlistHandler ⟨some "SG", none⟩ ⟨some "ann@example.com", some "Ann", some "waitlist"⟩
      (fun n => if n = 2 then ⟨true, false, false⟩ else ⟨false, true, true⟩)).1 =
      ⟨200, .success "Successfully joined the waitlist!"⟩ ∧
    (referralHandler ⟨some "SG", none⟩
      ⟨some "Ref", some "ref@x.com", none, some "Fred", some "fred@y.com"⟩
      (fun n => if n = 3 then ⟨true, false, false⟩ else ⟨false, true, true⟩)).1 =
      ⟨200, .success "Referral sent successfully!"⟩ ∧
    (alphaHandler ⟨some "SG", none⟩
      ⟨some "Ada", some "ada@example.com", some "ada", some "twitter",
        some "I want to test this tool every day", none⟩
      ⟨false, true, true⟩ (fun _ => ⟨true, false, false⟩)).1 =
      ⟨200, .success "Alpha access request submitted!"⟩ ∧
    (waitlistHandler ⟨some "SG", none⟩ ⟨some "ann@example.com", some "Ann", some "waitlist"⟩
      (fun n => if n = 1 then ⟨true, false, false⟩ else ⟨false, true, true⟩)).1 =
      ⟨500, .err "Failed to process signup"⟩ ∧
    (referralHandler ⟨some "SG", none⟩
      ⟨some "Ref", some "ref@x.com", none, some "Fred", some "fred@y.com"⟩
      (fun n => if n = 1 then ⟨true, false, false⟩ else ⟨false, true, true⟩)).1 =
      ⟨500, .err "Failed to process referral"⟩ :=
  ⟨best_effort_failure_behavior.1 _ _ _ (by decide) (by decide) (by decide)
      (by decide) (by decide) (by decide),
   best_effort_failure_behavior.2.1 _ _ _ (by decide) (by decide) (by decide) (by decide)
      (by decide) (by decide) (by decide) (by decide) (by decide) (by decide) (by decide)
      (by decide),
   best_effort_failure_behavior.2.2.1 _ _ _ _ (by decide) (by decide) (by decide)
      (by decide) (by decide) (by decide) (by decide) (by decide) (by decide) (by decide),
   best_effort_failure_behavior.2.2.2.1 _ _ _ (by decide) (by decide) (by decide)
      (by decide) (by decide) (by decide),
   best_effort_failure_behavior.2.2.2.2 _ _ _ (by decide) (by decide) (by decide) (by decide)
      (by decide) (by decide) (by decide) (by decide) (by decide) (by decide) (by decide)⟩

/-- C3: when the email-service API key is not configured, the alpha-signup
handler still returns 200 with the success body and issues no outbound call,
while the waitlist and referral handlers return a hard 500 with error body
`Email service not configured` before any outbound call. -/
theorem email_service_unconfigured_behavior :
    (∀ (cfg : Config) (b : AlphaBody) (tnet : NetResult) (net : Nat → NetResult),
      truthy cfg.sendgridKey = false →
      truthy b.name = true → truthy b.email = true → truthy b.github = true →
      truthy b.discovery = true → truthy b.motivation = true →
      includesChar (b.email.getD "") '@' = true →
      ¬ jsLength (b.motivation.getD "") < 20 →
      githubPatternTest (b.github.getD "") = true →
      truthy b.turnstileToken = false →
      alphaHandler cfg b tnet net = (⟨200, .success "Alpha access request submitted!"⟩, []))
    ∧ (∀ (cfg : Config) (b : WaitlistBody) (net : Nat → NetResult),
      truthy cfg.sendgridKey = false →
      truthy b.email = true → includesChar (b.email.getD "") '@' = true →
      waitlistHandler cfg b net = (⟨500, .err "Email service not configured"⟩, []))
    ∧ (∀ (cfg : Config) (b : ReferralBody) (net : Nat → NetResult),
      truthy cfg.sendgridKey = false →
      truthy b.referrerName = true → truthy b.referrerEmail = true →
      truthy b.friendName = true → truthy b.friendEmail = true →
      includesChar (b.referrerEmail.getD "") '@' = true →
      includesChar (b.friendEmail.getD "") '@' = true →
      (asciiLower (b.referrerEmail.getD "") == asciiLower (b.friendEmail.getD "")) = false →
      referralHandler cfg b net = (⟨500, .err "Email service not configured"⟩, [])) := by
  refine ⟨?_, ?_, ?_⟩
  · intro cfg b tnet net h0 h1 h2 h3 h4 h5 h6 h7 h8 h9
    simp [alphaHandler, h0, h1, h2, h3, h4, h5, h6, h7, h8, h9]
  · intro cfg b net h0 h1 h2
    simp [waitlistHandler, h0, h1, h2]
  · intro cfg b net h0 h1 h2 h3 h4 h5 h6 h7
    simp [referralHandler, h0, h1, h2, h3, h4, h5, h6, h7]

theorem email_service_unconfigured_behavior_witness :
    alphaHandler ⟨none, none⟩
      ⟨some "Ada", some "ada@example.com", some "ada", some "twitter",
        some "I want to test this tool every day", none⟩
      ⟨false, true, true⟩ (fun _ => ⟨false, true, true⟩) =
      (⟨200, .success "Alpha access request submitted!"⟩, []) ∧
    waitlistHandler ⟨none, none⟩ ⟨some "ann@example.com", some "Ann", some "waitlist"⟩
      (fun _ => ⟨false, true, true⟩) = (⟨500, .err "Email service not configured"⟩, []) ∧
    referralHandler ⟨none, none⟩
      ⟨some "Ref", some "ref@x.com", none, some "Fred", some "fred@y.com"⟩
      (fun _ => ⟨false, true, true⟩) = (⟨500, .err "Email service not configured"⟩, []) :=
  ⟨email_service_unconfigured_behavior.1 _ _ _ _ (by decide) (by decide) (by decide)
      (by decide) (by decide) (by decide) (by decide) (by decide) (by decide) (by decide),
   email_service_unconfigured_behavior.2.1 _ _ _ (by decide) (by decide) (by decide),
   email_service_unconfigured_behavior.2.2 _ _ _ (by decide) (by decide) (by decide)
      (by decide) (by decide) (by decide) (by decide) (by decide)⟩

/-- C4 counterexample: the bot verifier local to alpha-signup.ts, called with
the secret configured and an empty token, performs the network call and
returns the service's `success` verdict (here `true`), not `false` without a
network call as the claim states. -/
theorem alpha_local_verifier_empty_token_calls_network :
    verifyTurnstile (some "sk") "" ⟨false, true, true⟩ =
      (true, [.turnstileVerify "sk" "" none]) := by decide

/-- C4 (amended): the shared helper `verifyTurnstileToken` returns false
without performing any network call when the secret is configured and the
token is empty; the verifier local to alpha-signup.ts lacks that guard and
POSTs even an empty token (though its handler only invokes it for non-empty
tokens). -/
theorem shared_verifier_empty_token_no_network :
    (∀ (secretKey : Option String) (remoteip : Option String) (net : NetResult),
      truthy secretKey = true →
      verifyTurnstileToken "" secretKey remoteip net = (false, []))
    ∧ (∀ (secretKey : Option String) (net : NetResult),
      truthy secretKey = true →
      (verifyTurnstile secretKey "" net).2 =
        [.turnstileVerify (secretKey.getD "") "" none]) := by
  constructor
  · intro secretKey remoteip net h
    simp [verifyTurnstileToken, h]
  · intro secretKey net h
    cases ht : net.throws <;> simp [verifyTurnstile, h, ht]

theorem shared_verifier_empty_token_no_network_witness :
    verifyTurnstileToken "" (some "sk") none ⟨false, true, true⟩ = (false, []) ∧
    (verifyTurnstile (some "sk") "" ⟨false, true, true⟩).2 =
      [.turnstileVerify "sk" "" none] :=
  ⟨shared_verifier_empty_token_no_network.1 _ _ _ (by decide),
   shared_verifier_empty_token_no_network.2 _ _ (by decide)⟩

/-- C5 counterexample: the handle `a-` matches the claim's pattern
`^[A-Za-z0-9](?:[A-Za-z0-9]|-(?!-)){0,38}$` (a trailing hyphen satisfies the
negative lookahead), yet the alpha-signup handler rejects it with 400
`Invalid GitHub username format`, so the claimed accept-iff fails. -/
theorem github_trailing_hyphen_spec_mismatch :
    specGithubPattern "a-" = true ∧
    (alphaHandler ⟨some "SG", none⟩
      ⟨some "Ada", some "ada@example.com", some "a-", some "twitter",
        some "I want to test this tool every day", none⟩
      ⟨false, true, true⟩ (fun _ => ⟨false, true, true⟩)).1 =
    ⟨400, .err "Invalid GitHub username format"⟩ := by decide

/-- C5 (amended): the alpha-signup validator accepts a (non-empty) GitHub
handle iff it matches the source's pattern
`^[a-zA-Z0-9](?:[a-zA-Z0-9]|-(?=[a-zA-Z0-9])){0,38}$` — every hyphen must be
followed by an alphanumeric, so in particular a trailing hyphen is rejected;
a non-matching handle is rejected with 400 `Invalid GitHub username format`. -/
theorem github_validation_amended (github : String) (hne : github ≠ "") :
    (alphaHandler ⟨some "SG", none⟩
      ⟨some "Ada", some "ada@example.com", some github, some "twitter",
        some "I want to test this tool every day", none⟩
      ⟨false, true, true⟩ (fun _ => ⟨false, true, true⟩)).1 =
    (if githubPatternTest github then ⟨200, .success "Alpha access request submitted!"⟩
      else ⟨400, .err "Invalid GitHub username format"⟩) := by
  have hi : includesChar "ada@example.com" '@' = true := by decide
  have hl : ¬ jsLength "I want to test this tool every day" < 20 := by decide
  by_cases hg : githubPatternTest github = true
  · simp [alphaHandler, truthy, hne, hi, hl, hg]
  · rw [Bool.not_eq_true] at hg
    simp [alphaHandler, truthy, hne, hi, hl, hg]

theorem github_validation_amended_witness :
    ((alphaHandler ⟨some "SG", none⟩
      ⟨some "Ada", some "ada@example.com", some "a-", some "twitter",
        some "I want to test this tool every day", none⟩
      ⟨false, true, true⟩ (fun _ => ⟨false, true, true⟩)).1 =
    (if githubPatternTest "a-" then ⟨200, .success "Alpha access request submitted!"⟩
      else ⟨400, .err "Invalid GitHub username format"⟩)) :=
  github_validation_amended "a-" (by decide)

/-- C8 counterexample: on a fully successful alpha-signup run the first
dispatched job is the admin notification (to the fixed admin address), the
end-user confirmation comes second — not end-user first as claimed. -/
theorem alpha_dispatch_order_admin_first :
    ((alphaHandler ⟨some "SG", none⟩
      ⟨some "Ada", some "ada@example.com", some "ada", some "twitter",
        some "I want to test this tool every day", none⟩
      ⟨false, true, true⟩ (fun _ => ⟨false, true, true⟩)).2).map callKind =
    [.email ADMIN_EMAIL, .email "ada@example.com", .upsert ["ada@example.com"]] := by decide

/-- C8 (amended): the outbound jobs are issued strictly sequentially, but the
orders are per-endpoint: waitlist sends end-user confirmation, then admin
notification, then the contact upsert; referral sends friend invite, then
referrer confirmation, then admin notification, then the batched contact
upsert; alpha-signup sends the admin notification first, then the end-user
confirmation, then the contact upsert. -/
theorem dispatch_order_per_endpoint :
    (∀ (cfg : Config) (b : WaitlistBody) (net : Nat → NetResult),
      truthy b.email = true → includesChar (b.email.getD "") '@' = true →
      truthy cfg.sendgridKey = true →
      (net 0).throws = false → (net 0).ok = true → (net 1).throws = false →
      ((waitlistHandler cfg b net).2).map callKind =
        [.email (b.email.getD ""), .email ADMIN_EMAIL, .upsert [b.email.getD ""]])
    ∧ (∀ (cfg : Config) (b : ReferralBody) (net : Nat → NetResult),
      truthy b.referrerName = true → truthy b.referrerEmail = true →
      truthy b.friendName = true → truthy b.friendEmail = true →
      includesChar (b.referrerEmail.getD "") '@' = true →
      includesChar (b.friendEmail.getD "") '@' = true →
      (asciiLower (b.referrerEmail.getD "") == asciiLower (b.friendEmail.getD "")) = false →
      truthy cfg.sendgridKey = true →
      (net 0).throws = false → (net 0).ok = true →
      (net 1).throws = false → (net 2).throws = false →
      ((referralHandler cfg b net).2).map callKind =
        [.email (b.friendEmail.getD ""), .email (b.referrerEmail.getD ""),
          .email ADMIN_EMAIL, .upsert [b.referrerEmail.getD "", b.friendEmail.getD ""]])
    ∧ (∀ (cfg : Config) (b : AlphaBody) (tnet : NetResult) (net : Nat → NetResult),
      truthy b.name = true → truthy b.email = true → truthy b.github = true →
      truthy b.discovery = true → truthy b.motivation = true →
      includesChar (b.email.getD "") '@' = true →
      ¬ jsLength (b.motivation.getD "") < 20 →
      githubPatternTest (b.github.getD "") = true →
      truthy b.turnstileToken = false →
      truthy cfg.sendgridKey = true →
      (net 0).throws = false → (net 1).throws = false →
      ((alphaHandler cfg b tnet net).2).map callKind =
        [.email ADMIN_EMAIL, .email (b.email.getD ""), .upsert [b.email.getD ""]]) := by
  refine ⟨?_, ?_, ?_⟩
  · intro cfg b net h1 h2 h3 h4 h5 h6
    simp [waitlistHandler, h1, h2, h3, h4, h5, h6, callKind]
  · intro cfg b net h1 h2 h3 h4 h5 h6 h7 h8 h9 h10 h11 h12
    simp [referralHandler, h1, h2, h3, h4, h5, h6, h7, h8, h9, h10, h11, h12, callKind]
  · intro cfg b tnet net h1 h2 h3 h4 h5 h6 h7 h8 h9 h10 h11 h12
    simp [alphaHandler, h1, h2, h3, h4, h5, h6, h7, h8, h9, h10, h11, h12, callKind]

theorem dispatch_order_per_endpoint_witness :
    ((waitlistHandler ⟨some "SG", none⟩ ⟨some "ann@example.com", some "Ann", some "waitlist"⟩
      (fun _ => ⟨false, true, true⟩)).2).map callKind =
      [.email "ann@example.com", .email ADMIN_EMAIL, .upsert ["ann@example.com"]] ∧
    ((referralHandler ⟨some "SG", none⟩
      ⟨some "Ref", some "ref@x.com", none, some "Fred", some "fred@y.com"⟩
      (fun _ => ⟨false, true, true⟩)).2).map callKind =
      [.email "fred@y.com", .email "ref@x.com", .email ADMIN_EMAIL,
        .upsert ["ref@x.com", "fred@y.com"]] ∧
    ((alphaHandler ⟨some "SG", none⟩
      ⟨some "Ada", some "ada@example.com", some "ada", some "twitter",
        some "I want to test this tool every day", none⟩
      ⟨false, true, true⟩ (fun _ => ⟨false, true, true⟩)).2).map callKind =
      [.email ADMIN_EMAIL, .email "ada@example.com", .upsert ["ada@example.com"]] :=
  ⟨dispatch_order_per_endpoint.1 _ _ _ (by decide) (by decide) (by decide) (by decide)
      (by decide) (by decide),
   dispatch_order_per_endpoint.2.1 _ _ _ (by decide) (by decide) (by decide) (by decide)
      (by decide) (by decide) (by decide) (by decide) (by decide) (by decide) (by decide)
      (by decide),
   dispatch_order_per_endpoint.2.2 _ _ _ _ (by decide) (by decide) (by decide) (by decide)
      (by decide) (by decide) (by decide) (by decide) (by decide) (by decide) (by decide)
      (by decide)⟩

/-- C9: in the alpha-signup handler, when the bot-verification secret is
configured but the request supplies no token (absent or empty), verification
is skipped entirely — the trace contains no verification call — and the
request proceeds to dispatch, returning 200 success. -/
theorem alpha_no_token_skips_verification (cfg : Config) (b : AlphaBody)
    (tnet : NetResult) (net : Nat → NetResult)
    (hsec : truthy cfg.turnstileSecret = true) (htok : truthy b.turnstileToken = false)
    (h1 : truthy b.name = true) (h2 : truthy b.email = true) (h3 : truthy b.github = true)
    (h4 : truthy b.discovery = true) (h5 : truthy b.motivation = true)
    (h6 : includesChar (b.email.getD "") '@' = true)
    (h7 : ¬ jsLength (b.motivation.getD "") < 20)
    (h8 : githubPatternTest (b.github.getD "") = true)
    (hkey : truthy cfg.sendgridKey = true)
    (hn0 : (net 0).throws = false) (hn1 : (net 1).throws = false) :
    (alphaHandler cfg b tnet net).1 = ⟨200, .success "Alpha access request submitted!"⟩ ∧
    ((alphaHandler cfg b tnet net).2.all fun c => !isTurnstileCall c) = true := by
  constructor
  · simp [alphaHandler, hsec, htok, h1, h2, h3, h4, h5, h6, h7, h8, hkey, hn0, hn1]
  · simp [alphaHandler, hsec, htok, h1, h2, h3, h4, h5, h6, h7, h8, hkey, hn0, hn1,
      isTurnstileCall]

theorem alpha_no_token_skips_verification_witness :
    (alphaHandler ⟨some "SG", some "ts-secret"⟩
      ⟨some "Ada", some "ada@example.com", some "ada", some "twitter",
        some "I want to test this tool every day", some ""⟩
      ⟨false, true, true⟩ (fun _ => ⟨false, true, true⟩)).1 =
      ⟨200, .success "Alpha access request submitted!"⟩ ∧
    ((alphaHandler ⟨some "SG", some "ts-secret"⟩
      ⟨some "Ada", some "ada@example.com", some "ada", some "twitter",
        some "I want to test this tool every day", some ""⟩
      ⟨false, true, true⟩ (fun _ => ⟨false, true, true⟩)).2.all
        fun c => !isTurnstileCall c) = true :=
  alpha_no_token_skips_verification ⟨some "SG", some "ts-secret"⟩
    ⟨some "Ada", some "ada@example.com", some "ada", some "twitter",
      some "I want to test this tool every day", some ""⟩
    ⟨false, true, true⟩ (fun _ => ⟨false, true, true⟩)
    (by decide) (by decide) (by decide) (by decide) (by decide) (by decide) (by decide)
    (by decide) (by decide) (by decide) (by decide) (by decide) (by decide)

/-- C10: the waitlist handler validates only the email field (present and
containing `@`); name and type are unconstrained — `none` included — and any
type other than exactly `foundation100` is processed as a plain waitlist
signup with the waitlist subject and welcome template. -/
theorem waitlist_validates_only_email (cfg : Config) (b : WaitlistBody)
    (net : Nat → NetResult)
    (he : truthy b.email = true) (ha : includesChar (b.email.getD "") '@' = true)
    (hkey : truthy cfg.sendgridKey = true)
    (hn0t : (net 0).throws = false) (hn0k : (net 0).ok = true)
    (hn1 : (net 1).throws = false)
    (hty : (b.type == some "foundation100") = false) :
    waitlistHandler cfg b net =
      (⟨200, .success "Successfully joined the waitlist!"⟩,
        [.emailSend (b.email.getD "") "🚀 You\x27re on the Neural Commander Waitlist!"
            (.waitlistWelcome (jsOr b.name "there")),
          .emailSend ADMIN_EMAIL ("📋 New Waitlist Signup: " ++ b.email.getD "")
            (.waitlistAdminNotif (b.email.getD "") b.name b.type),
          .contactUpsert [(b.email.getD "", jsOr b.name "")]]) := by
  simp [waitlistHandler, he, ha, hkey, hn0t, hn0k, hn1, hty]

theorem waitlist_validates_only_email_witness :
    waitlistHandler ⟨some "SG", none⟩ ⟨some "ann@example.com", none, none⟩
      (fun _ => ⟨false, true, true⟩) =
      (⟨200, .success "Successfully joined the waitlist!"⟩,
        [.emailSend "ann@example.com" "🚀 You\x27re on the Neural Commander Waitlist!"
            (.waitlistWelcome "there"),
          .emailSend ADMIN_EMAIL "📋 New Waitlist Signup: ann@example.com"
            (.waitlistAdminNotif "ann@example.com" none none),
          .contactUpsert [("ann@example.com", "")]]) := by
  have h := waitlist_validates_only_email ⟨some "SG", none⟩ ⟨some "ann@example.com", none, none⟩
    (fun _ => ⟨false, true, true⟩) (by decide) (by decide) (by decide) (by decide)
    (by decide) (by decide) (by decide)
  simpa using h
